import Mathlib

/-!
Verification of the business-card contact manager (Express + Drizzle source).

The definitions below are a shallow embedding of the server code:
`shared/schema.ts` (tables and insert schemas), `server/storage.ts`
(`DatabaseStorage`), `server/services/ai.ts` (`extractContactDataFromText`,
`processNaturalLanguageQuery`), `server/routes.ts` (`registerRoutes`,
`processBusinessCard`, the multer `upload` configuration) and
`server/middleware/errorHandler.ts` (`globalErrorHandler`).

The relational store is embedded as in-memory lists of rows; each storage
method is translated row-for-row from its Drizzle query.  JavaScript numbers
(confidence scores, timestamps) are embedded as rationals, and the dynamic
JSON criteria objects fed to `searchContacts` are embedded as an inductive
`JsonVal`.
-/

/-- Processing status of a business card (the `processing_status` text column;
the code only ever writes these five values). -/
inductive Status where
  | pending
  | processing
  | pendingVerification
  | completed
  | failed
deriving DecidableEq, Repr

/-- A row of the `contacts` table (shared/schema.ts). -/
structure Contact where
  id : Nat
  name : String
  email : Option String := none
  phone : Option String := none
  company : Option String := none
  title : Option String := none
  industry : Option String := none
  address : Option String := none
  website : Option String := none
  notes : Option String := none
  tags : Option (List String) := none
  eventId : Option Nat := none
  userId : String
  createdAt : ℚ := 0
  updatedAt : ℚ := 0
deriving DecidableEq, Repr

/-- The structured payload returned by `extractContactDataFromText`
(`ExtractedContactData` in server/services/ai.ts). -/
structure ExtractedContactData where
  name : Option String := none
  email : Option String := none
  phone : Option String := none
  company : Option String := none
  title : Option String := none
  industry : Option String := none
  address : Option String := none
  website : Option String := none
  confidence : ℚ := 0
deriving DecidableEq, Repr

/-- A row of the `business_cards` table (shared/schema.ts). -/
structure Card where
  id : Nat
  filename : String
  originalPath : String
  ocrText : Option String := none
  extractedData : Option ExtractedContactData := none
  processingStatus : Status := Status.pending
  processingError : Option String := none
  ocrConfidence : Option ℚ := none
  aiConfidence : Option ℚ := none
  contactId : Option Nat := none
  userId : String
  createdAt : ℚ := 0
  updatedAt : ℚ := 0
deriving DecidableEq, Repr

/-- A row of the `events` table (shared/schema.ts). -/
structure Event where
  id : Nat
  name : String
  location : Option String := none
  date : Option ℚ := none
  notes : Option String := none
  userId : String
  createdAt : ℚ := 0
  updatedAt : ℚ := 0
deriving DecidableEq, Repr

/-- A JSON value, as produced by `JSON.parse` on the LLM output: the dynamic
criteria object handed to `DatabaseStorage.searchContacts`. -/
inductive JsonVal where
  | str (s : String)
  | num (q : ℚ)
  | bool (b : Bool)
  | null
  | arr (xs : List JsonVal)
  | obj (fields : List (String × JsonVal))

/-- JavaScript property read `v[key]` for the keys the code uses
(`criteria.where`, `criteria.orderBy`, `orderBy.column`, `orderBy.order`):
defined on objects, `undefined` (here `none`) on everything else. -/
def getField (v : JsonVal) (key : String) : Option JsonVal :=
  match v with
  | JsonVal.obj fields => fields.lookup key
  | _ => none

/-- JavaScript truthiness of a value. -/
def jsTruthy (v : JsonVal) : Bool :=
  match v with
  | JsonVal.str s => s ≠ ""
  | JsonVal.num q => q ≠ 0
  | JsonVal.bool b => b
  | JsonVal.null => false
  | JsonVal.arr _ => true
  | JsonVal.obj _ => true

/-- Truthiness of a possibly-absent value (`undefined` is falsy). -/
def jsTruthyOpt (v : Option JsonVal) : Bool :=
  match v with
  | some x => jsTruthy x
  | none => false

/-- Rendering of a rational as JavaScript renders numbers inside a template
literal.  Integral values render exactly; for non-integral values we keep the
`num/den` form (the decimal expansion itself is never relied on). -/
def jsNumToString (q : ℚ) : String :=
  if q.den = 1 then toString q.num else toString q.num ++ "/" ++ toString q.den

mutual
/-- JavaScript string interpolation of a value, as used in
`ilike(column, pctPat)` inside `buildWhereClause`. -/
def jsToString : JsonVal → String
  | JsonVal.str s => s
  | JsonVal.num q => jsNumToString q
  | JsonVal.bool b => if b then "true" else "false"
  | JsonVal.null => "null"
  | JsonVal.arr xs => jsArrJoin xs
  | JsonVal.obj _ => "[object Object]"

/-- `Array.prototype.toString`: elements joined by commas. -/
def jsArrJoin : List JsonVal → String
  | [] => ""
  | [x] => jsArrElem x
  | x :: y :: xs => jsArrElem x ++ "," ++ jsArrJoin (y :: xs)

/-- Inside an array join, `null` renders as the empty string. -/
def jsArrElem : JsonVal → String
  | JsonVal.null => ""
  | v => jsToString v
end

/-- The text columns `buildWhereClause` can target with `ilike`. -/
inductive TextField where
  | name
  | email
  | company
  | title
  | industry
deriving DecidableEq, Repr

/-- The SQL condition tree produced by `searchContacts` and
`buildWhereClause` (drizzle `SQL` values, kept syntactic). -/
inductive Cond where
  | eqUser (u : String)
  | ilikeF (fld : TextField) (pat : String)
  | eqEmail (v : JsonVal)
  | cmpCreated (ge : Bool) (v : JsonVal)
  | conj (a b : Cond)
  | disj (a b : Cond)

/-- Left fold of drizzle `and(...)` over a non-empty condition list. -/
def conjAll : Cond → List Cond → Cond
  | c, [] => c
  | c, d :: ds => conjAll (Cond.conj c d) ds

/-- Left fold of drizzle `or(...)` over a non-empty condition list. -/
def disjAll : Cond → List Cond → Cond
  | c, [] => c
  | c, d :: ds => disjAll (Cond.disj c d) ds

/-- `and(...nested)` guarded by `nested.length > 0`. -/
def mkAndList : List Cond → Option Cond
  | [] => none
  | c :: ds => some (conjAll c ds)

/-- `or(...nested)` guarded by `nested.length > 0`. -/
def mkOrList : List Cond → Option Cond
  | [] => none
  | c :: ds => some (disjAll c ds)

/-- Final combination at the bottom of `buildWhereClause`: zero conditions
give `undefined`, one is returned as-is, several are `and`-ed. -/
def mkWhere : List Cond → Option Cond
  | [] => none
  | [c] => some c
  | c :: d :: ds => some (conjAll (Cond.conj c d) ds)

mutual
/-- `DatabaseStorage.buildWhereClause` (server/storage.ts): iterates the keys
of the `where` object; every key other than the six known columns and
`and`/`or` contributes nothing, as does any condition that is not a
JavaScript object.  On a non-object argument `for..in` enumerates no
object-valued properties, so no condition is produced. -/
def buildWhereClause : JsonVal → Option Cond
  | JsonVal.obj fields => mkWhere (buildConds fields)
  | _ => none

/-- One `for (const key in where)` pass, collecting the conditions. -/
def buildConds : List (String × JsonVal) → List Cond
  | [] => []
  | (k, v) :: rest =>
    match entryCond k v with
    | some c => c :: buildConds rest
    | none => buildConds rest

/-- Handling of a single key: the condition must be object-typed and not
`null`; `operator` is its first own key (for an array, the index `"0"`) and
`operand` the corresponding value. -/
def entryCond : String → JsonVal → Option Cond
  | k, JsonVal.obj ((op, operand) :: _) => condFor k op operand
  | k, JsonVal.arr (x :: _) => condFor k "0" x
  | _, _ => none

/-- The `switch (key)` of `buildWhereClause`.  Unrecognized keys and
operators fall through and yield no condition. -/
def condFor (k op : String) (operand : JsonVal) : Option Cond :=
  if k = "name" then
    if op = "ilike" then some (Cond.ilikeF TextField.name (jsToString operand)) else none
  else if k = "email" then
    if op = "ilike" then some (Cond.ilikeF TextField.email (jsToString operand))
    else if op = "eq" then some (Cond.eqEmail operand) else none
  else if k = "company" then
    if op = "ilike" then some (Cond.ilikeF TextField.company (jsToString operand)) else none
  else if k = "title" then
    if op = "ilike" then some (Cond.ilikeF TextField.title (jsToString operand)) else none
  else if k = "industry" then
    if op = "ilike" then some (Cond.ilikeF TextField.industry (jsToString operand)) else none
  else if k = "createdAt" then
    if op = "gte" then some (Cond.cmpCreated true operand)
    else if op = "lte" then some (Cond.cmpCreated false operand) else none
  else if k = "and" then
    match operand with
    | JsonVal.arr xs => mkAndList (buildList xs)
    | _ => none
  else if k = "or" then
    match operand with
    | JsonVal.arr xs => mkOrList (buildList xs)
    | _ => none
  else none

/-- `operand.map(c => this.buildWhereClause(c)).filter(c => c)`. -/
def buildList : List JsonVal → List Cond
  | [] => []
  | x :: xs =>
    match buildWhereClause x with
    | some c => c :: buildList xs
    | none => buildList xs
end

/-- Field projection for `ilike` targets. -/
def textFieldVal (f : TextField) (c : Contact) : Option String :=
  match f with
  | TextField.name => some c.name
  | TextField.email => c.email
  | TextField.company => c.company
  | TextField.title => c.title
  | TextField.industry => c.industry

/-- SQL `col ILIKE concatPercent pat`: case-insensitive containment; a SQL
NULL column never matches. -/
def ilikeMatch (fieldVal : Option String) (pat : String) : Bool :=
  match fieldVal with
  | none => false
  | some s =>
    if pat = "" then true
    else 2 ≤ ((s.toLower).splitOn (pat.toLower)).length

/-- The numeric reading the database gives a `createdAt` comparison operand;
timestamps are embedded as rationals, other operands do not compare. -/
def jsonNum (v : JsonVal) : Option ℚ :=
  match v with
  | JsonVal.num q => some q
  | _ => none

/-- Row-level semantics of the condition tree. -/
def evalCond : Cond → Contact → Bool
  | Cond.eqUser u, c => c.userId == u
  | Cond.ilikeF f pat, c => ilikeMatch (textFieldVal f c) pat
  | Cond.eqEmail v, c =>
    match c.email, v with
    | some e, JsonVal.str s => e == s
    | _, _ => false
  | Cond.cmpCreated ge v, c =>
    match jsonNum v with
    | some t => if ge then decide (t ≤ c.createdAt) else decide (c.createdAt ≤ t)
    | none => false
  | Cond.conj a b, c => evalCond a c && evalCond b c
  | Cond.disj a b, c => evalCond a c || evalCond b c

/-- Insertion of one element into a list sorted by the boolean order `le`. -/
def insertByLe (le : Contact → Contact → Bool) (a : Contact) : List Contact → List Contact
  | [] => [a]
  | b :: bs => if le a b then a :: b :: bs else b :: insertByLe le a bs

/-- Insertion sort by the boolean order `le`, embedding SQL `ORDER BY`. -/
def sortByLe (le : Contact → Contact → Bool) : List Contact → List Contact
  | [] => []
  | a :: as => insertByLe le a (sortByLe le as)

/-- `desc(contacts.createdAt)`, the default order of `getAllContacts` and
`searchContacts`. -/
def createdDescLe (a b : Contact) : Bool :=
  decide (b.createdAt ≤ a.createdAt)

/-- `asc(contacts.createdAt)`. -/
def createdAscLe (a b : Contact) : Bool :=
  decide (a.createdAt ≤ b.createdAt)

/-- Boolean string order backing `ORDER BY` on a text column. -/
def strLeB (a b : String) : Bool :=
  a == b || decide (a < b)

/-- Order on an optional text column (SQL NULLs sort together at the end). -/
def optStrLeB (a b : Option String) : Bool :=
  match a, b with
  | none, none => true
  | none, some _ => false
  | some _, none => true
  | some x, some y => strLeB x y

/-- The comparator selected by the `orderBy` arm of `searchContacts`:
`orderBy.column` is switched against `name` / `createdAt` / `company` (any
other truthy column falls back to `desc(createdAt)` regardless of `order`),
and `order` counts as descending only when it is exactly the string `desc`. -/
def contactSortLe (criteria : JsonVal) : Contact → Contact → Bool :=
  match getField criteria "orderBy" with
  | some ob =>
    if jsTruthy ob && jsTruthyOpt (getField ob "column") then
      let descOrder : Bool :=
        match getField ob "order" with
        | some (JsonVal.str s) => s == "desc"
        | _ => false
      match getField ob "column" with
      | some (JsonVal.str "name") =>
        if descOrder then fun a b => strLeB b.name a.name
        else fun a b => strLeB a.name b.name
      | some (JsonVal.str "createdAt") =>
        if descOrder then createdDescLe else createdAscLe
      | some (JsonVal.str "company") =>
        if descOrder then fun a b => optStrLeB b.company a.company
        else fun a b => optStrLeB a.company b.company
      | _ => createdDescLe
    else createdDescLe
  | none => createdDescLe

/-- The `where` value of the criteria when it is truthy
(`if (criteria.where)` in `searchContacts`). -/
def whereVal (criteria : JsonVal) : Option JsonVal :=
  match getField criteria "where" with
  | some v => if jsTruthy v then some v else none
  | none => none

/-- The complete filter `searchContacts` executes: the caller's user
condition, conjoined at the top level with the built where-clause whenever
one exists. -/
def searchFilter (criteria : JsonVal) (u : String) : Cond :=
  match whereVal criteria with
  | some w =>
    match buildWhereClause w with
    | some wc => Cond.conj (Cond.eqUser u) wc
    | none => Cond.eqUser u
  | none => Cond.eqUser u

/-- `DatabaseStorage.searchContacts(criteria, userId)`: rows of `contacts`
satisfying the filter, in the selected order. -/
def searchContacts (criteria : JsonVal) (u : String) (db : List Contact) : List Contact :=
  sortByLe (contactSortLe criteria) (db.filter (fun c => evalCond (searchFilter criteria u) c))

/-- `DatabaseStorage.getAllContacts(userId, limit, offset)`: the user's rows
ordered by `desc(createdAt)`, then `OFFSET offset LIMIT limit`. -/
def getAllContacts (u : String) (limit offset : Nat) (db : List Contact) : List Contact :=
  ((sortByLe createdDescLe (db.filter (fun c => c.userId == u))).drop offset).take limit

/-- `DatabaseStorage.getContact(id, userId)`: first row matching
`and(eq(contacts.id, id), eq(contacts.userId, userId))`. -/
def getContact (id : Nat) (u : String) (db : List Contact) : Option Contact :=
  db.find? (fun c => c.id == id && c.userId == u)

/-- `processNaturalLanguageQuery` (server/services/ai.ts): the LLM call plus
`JSON.parse` is the `Except` argument; any failure (API error or unparseable
content) is caught and degenerates to the empty criteria object. -/
def processNaturalLanguageQuery (llm : Except Unit JsonVal) : JsonVal :=
  match llm with
  | Except.ok v => v
  | Except.error _ => JsonVal.obj []

/-- `extractContactDataFromText` (server/services/ai.ts): the LLM call plus
`JSON.parse` is the `Except` argument; a thrown error or null content is
caught and yields a bare `confidence: 0` payload. -/
def extractContactDataFromText (llm : Except Unit ExtractedContactData) : ExtractedContactData :=
  match llm with
  | Except.ok d => d
  | Except.error _ => { confidence := 0 }

/-- `Math.round`, which rounds half away from zero upward. -/
def jsRound (q : ℚ) : ℤ := ⌊q + 1 / 2⌋

/-- JavaScript `a || b` on an optional string (empty strings are falsy), used
for `contactData.name || 'Unknown'`. -/
def jsOrElse (o : Option String) (dflt : String) : String :=
  match o with
  | some s => if s = "" then dflt else s
  | none => dflt

/-- The diagnostic recorded when OCR yields no text or zero confidence. -/
def ocrFailedMsg : String :=
  "Unable to extract text from image. Please ensure the image is clear and in a supported format (JPG, PNG, GIF, BMP)."

/-- The `pending-verification` message for OCR confidence below 0.5. -/
def lowOcrMsg (c : ℚ) : String :=
  "Low OCR confidence (" ++ toString (jsRound (c * 100)) ++ "%). Please verify extracted data."

/-- The `pending-verification` message for AI confidence below 0.15. -/
def lowAiMsg (c : ℚ) : String :=
  "Low AI confidence (" ++ toString (jsRound (c * 100)) ++ "%). Please verify extracted data."

/-- The catch-all failure message of `processBusinessCard`. -/
def procFailedMsg (e : String) : String :=
  "Processing failed: " ++ e

/-- The notes recorded on an auto-created contact. -/
def extractionNotes (c : ℚ) : String :=
  "Extracted from business card with " ++ toString (jsRound (c * 100)) ++ "% confidence"

/-- `extractTextFromBuffer`'s result shape (text plus 0-1 confidence). -/
structure OCRResult where
  text : String
  confidence : ℚ
deriving DecidableEq, Repr

/-- Outcomes of the external interactions of one `processBusinessCard` run:
the file read plus OCR call (which may throw), the LLM call behind
`extractContactDataFromText`, and the final `fs.unlinkSync` (which may
throw). -/
structure PipelineEnv where
  ocr : Except String OCRResult
  llm : Except Unit ExtractedContactData
  unlink : Except String Unit

/-- Everything one `processBusinessCard` run changes or observes: the final
card row, the contacts it inserted, whether the uploaded file was removed,
and whether `extractContactDataFromText` was called. -/
structure RunResult where
  card : Card
  createdContacts : List Contact
  fileDeleted : Bool
  aiInvoked : Bool
deriving Repr

/-- The contact `processBusinessCard` inserts on its success path: a missing
or empty extracted name falls back to `Unknown`, and the notes record the
rounded confidence percentage. -/
def mkExtractedContact (d : ExtractedContactData) (userId : String) (cid : Nat) (now : ℚ) : Contact :=
  { id := cid
    name := jsOrElse d.name "Unknown"
    email := d.email
    phone := d.phone
    company := d.company
    title := d.title
    industry := d.industry
    address := d.address
    website := d.website
    notes := some (extractionNotes d.confidence)
    userId := userId
    createdAt := now
    updatedAt := now }

/-- `processBusinessCard` (server/routes.ts): one single-pass background run
over a card row.  The `try` block is translated branch by branch; a throwing
step (file read / OCR, or the final `unlinkSync`) lands in the `catch` arm,
which overwrites only `processingStatus` and `processingError`. -/
def processBusinessCard (env : PipelineEnv) (userId : String) (cid : Nat) (now : ℚ)
    (card0 : Card) : RunResult :=
  match env.ocr with
  | Except.error e =>
    { card := { card0 with processingStatus := Status.failed
                           processingError := some (procFailedMsg e)
                           updatedAt := now }
      createdContacts := []
      fileDeleted := false
      aiInvoked := false }
  | Except.ok r =>
    let card1 : Card :=
      { card0 with ocrText := some r.text
                   processingStatus := Status.processing
                   ocrConfidence := some r.confidence
                   updatedAt := now }
    if r.confidence = 0 ∨ r.text = "" then
      { card := { card1 with processingStatus := Status.failed
                             processingError := some ocrFailedMsg
                             updatedAt := now }
        createdContacts := []
        fileDeleted := false
        aiInvoked := false }
    else
      let d := extractContactDataFromText env.llm
      if r.confidence < 1 / 2 then
        { card := { card1 with processingStatus := Status.pendingVerification
                               processingError := some (lowOcrMsg r.confidence)
                               extractedData := some d
                               aiConfidence := some d.confidence
                               updatedAt := now }
          createdContacts := []
          fileDeleted := false
          aiInvoked := true }
      else if d.confidence < 3 / 20 then
        { card := { card1 with processingStatus := Status.pendingVerification
                               processingError := some (lowAiMsg d.confidence)
                               extractedData := some d
                               aiConfidence := some d.confidence
                               updatedAt := now }
          createdContacts := []
          fileDeleted := false
          aiInvoked := true }
      else
        let ct := mkExtractedContact d userId cid now
        let card2 : Card :=
          { card1 with contactId := some cid
                       extractedData := some d
                       processingStatus := Status.completed
                       aiConfidence := some d.confidence
                       updatedAt := now }
        match env.unlink with
        | Except.ok _ =>
          { card := card2, createdContacts := [ct], fileDeleted := true, aiInvoked := true }
        | Except.error e =>
          { card := { card2 with processingStatus := Status.failed
                                 processingError := some (procFailedMsg e)
                                 updatedAt := now }
            createdContacts := [ct]
            fileDeleted := false
            aiInvoked := true }

/-- The whole persisted state the endpoints operate on. -/
structure AppState where
  contacts : List Contact
  cards : List Card
  events : List Event
deriving Repr

/-- The empty database. -/
def emptyState : AppState := { contacts := [], cards := [], events := [] }

/-- The serial id the `contacts` table would assign next. -/
def nextContactId (s : AppState) : Nat :=
  (s.contacts.map Contact.id).foldr max 0 + 1

/-- The serial id the `business_cards` table would assign next. -/
def nextCardId (s : AppState) : Nat :=
  (s.cards.map Card.id).foldr max 0 + 1

/-- The validated body of `POST /contacts` and of the verify endpoint
(`insertContactSchema.parse`): every `contacts` column except the omitted
`id`, `createdAt` and `updatedAt`; in particular `userId` is part of the
accepted field set (the handlers overwrite it, except `updateContact`). -/
structure ContactFields where
  name : String
  email : Option String := none
  phone : Option String := none
  company : Option String := none
  title : Option String := none
  industry : Option String := none
  address : Option String := none
  website : Option String := none
  notes : Option String := none
  tags : Option (List String) := none
  eventId : Option Nat := none
  userId : String
deriving DecidableEq, Repr

/-- The validated body of `PUT /contacts/:id`
(`insertContactSchema.partial().parse`): each accepted column optionally
present, `userId` included. -/
structure ContactUpdate where
  name : Option String := none
  email : Option (Option String) := none
  phone : Option (Option String) := none
  company : Option (Option String) := none
  title : Option (Option String) := none
  industry : Option (Option String) := none
  address : Option (Option String) := none
  website : Option (Option String) := none
  notes : Option (Option String) := none
  tags : Option (Option (List String)) := none
  eventId : Option (Option Nat) := none
  userId : Option String := none
deriving DecidableEq, Repr

/-- The `{...updates, updatedAt: new Date()}` spread of
`DatabaseStorage.updateContact`: present fields overwrite the row. -/
def applyContactUpdate (upd : ContactUpdate) (now : ℚ) (c : Contact) : Contact :=
  { c with name := upd.name.getD c.name
           email := upd.email.getD c.email
           phone := upd.phone.getD c.phone
           company := upd.company.getD c.company
           title := upd.title.getD c.title
           industry := upd.industry.getD c.industry
           address := upd.address.getD c.address
           website := upd.website.getD c.website
           notes := upd.notes.getD c.notes
           tags := upd.tags.getD c.tags
           eventId := upd.eventId.getD c.eventId
           userId := upd.userId.getD c.userId
           updatedAt := now }

/-- `DatabaseStorage.updateContact(id, userId, updates)`: updates the rows
matching `and(eq(id), eq(userId))` and returns the updated row, or
`undefined` when no row matches. -/
def updateContact (id : Nat) (u : String) (upd : ContactUpdate) (now : ℚ)
    (db : List Contact) : Option Contact × List Contact :=
  match db.find? (fun c => c.id == id && c.userId == u) with
  | none => (none, db)
  | some c =>
    (some (applyContactUpdate upd now c),
     db.map (fun x => if x.id == id && x.userId == u then applyContactUpdate upd now x else x))

/-- The contact `createContact({...validatedData, userId})` inserts: the
body's `userId` is overwritten with the caller's identity. -/
def mkContactFromFields (cid : Nat) (f : ContactFields) (caller : String) (now : ℚ) : Contact :=
  { id := cid
    name := f.name
    email := f.email
    phone := f.phone
    company := f.company
    title := f.title
    industry := f.industry
    address := f.address
    website := f.website
    notes := f.notes
    tags := f.tags
    eventId := f.eventId
    userId := caller
    createdAt := now
    updatedAt := now }

/-- `POST /contacts`: validate, then insert with the caller as owner. -/
def createContactOp (f : ContactFields) (caller : String) (now : ℚ) (s : AppState) : AppState :=
  { s with contacts := s.contacts ++ [mkContactFromFields (nextContactId s) f caller now] }

/-- `PUT /contacts/:id` at the storage layer. -/
def updateContactOp (id : Nat) (u : String) (upd : ContactUpdate) (now : ℚ) (s : AppState) : AppState :=
  { s with contacts := (updateContact id u upd now s.contacts).2 }

/-- `DatabaseStorage.deleteContact(id, userId)`: first NULL out the
`contactId` of the user's cards referencing the contact — their
`processingStatus` is left untouched — then delete the contact row. -/
def deleteContactOp (id : Nat) (u : String) (s : AppState) : AppState :=
  { s with cards := s.cards.map (fun card =>
      if card.contactId == some id && card.userId == u then { card with contactId := none } else card)
           contacts := s.contacts.filter (fun c => !(c.id == id && c.userId == u)) }

/-- `POST /business-cards/:id/verify`: create a contact from the verified
fields owned by the caller, then `updateBusinessCard(businessCardId, ...)` —
the card update is filtered by card id only, with no owning-user condition. -/
def verifyOp (caller : String) (cardId : Nat) (body : ContactFields) (now : ℚ) (s : AppState) : AppState :=
  let cid := nextContactId s
  { s with contacts := s.contacts ++ [mkContactFromFields cid body caller now]
           cards := s.cards.map (fun card =>
             if card.id == cardId then
               { card with contactId := some cid
                           processingStatus := Status.completed
                           processingError := none
                           updatedAt := now }
             else card) }

/-- Rewrite the owning user of the card with the given id (used to state that
`verifyOp` acts identically whatever the card's owner is). -/
def setCardOwner (cardId : Nat) (w : String) (s : AppState) : AppState :=
  { s with cards := s.cards.map (fun card =>
      if card.id == cardId then { card with userId := w } else card) }

/-- The card row `POST /business-cards/upload` inserts before starting the
background run. -/
def uploadOp (u : String) (filename origPath : String) (now : ℚ) (s : AppState) : AppState :=
  { s with cards := s.cards ++
      [{ id := nextCardId s
         filename := filename
         originalPath := origPath
         processingStatus := Status.processing
         userId := u
         createdAt := now
         updatedAt := now }] }

/-- A full background run against the store: locate the card, run
`processBusinessCard`, persist its final card row and any created contact. -/
def runPipelineOp (env : PipelineEnv) (cardId : Nat) (now : ℚ) (s : AppState) : AppState :=
  match s.cards.find? (fun c => c.id == cardId) with
  | none => s
  | some card =>
    let res := processBusinessCard env card.userId (nextContactId s) now card
    { s with cards := s.cards.map (fun c => if c.id == cardId then res.card else c)
             contacts := s.contacts ++ res.createdContacts }

/-- `POST /events` at the storage layer. -/
def createEventOp (name : String) (u : String) (now : ℚ) (s : AppState) : AppState :=
  { s with events := s.events ++
      [{ id := (s.events.map Event.id).foldr max 0 + 1
         name := name
         userId := u
         createdAt := now
         updatedAt := now }] }

/-- The validated body of `PUT /events/:id`. -/
structure EventUpdate where
  name : Option String := none
  location : Option (Option String) := none
  date : Option (Option ℚ) := none
  notes : Option (Option String) := none
deriving DecidableEq, Repr

/-- `DatabaseStorage.updateEvent(id, userId, updates)`. -/
def updateEventOp (id : Nat) (u : String) (upd : EventUpdate) (now : ℚ) (s : AppState) : AppState :=
  { s with events := s.events.map (fun e =>
      if e.id == id && e.userId == u then
        { e with name := upd.name.getD e.name
                 location := upd.location.getD e.location
                 date := upd.date.getD e.date
                 notes := upd.notes.getD e.notes
                 updatedAt := now }
      else e) }

/-- `DatabaseStorage.deleteEvent(id, userId)`: disassociate the user's
contacts from the event, then delete the event row. -/
def deleteEventOp (id : Nat) (u : String) (s : AppState) : AppState :=
  { s with contacts := s.contacts.map (fun c =>
      if c.eventId == some id && c.userId == u then { c with eventId := none } else c)
           events := s.events.filter (fun e => !(e.id == id && e.userId == u)) }

/-- The upload as it reaches multer. -/
structure UploadedFile where
  originalname : String
  mimetype : String
  size : Nat
  path : String
deriving DecidableEq, Repr

/-- The `allowedTypes` list of the multer `fileFilter`. -/
def allowedMimeTypes : List String :=
  ["image/jpeg", "image/png", "image/gif", "image/bmp", "image/webp", "application/pdf"]

/-- A thrown JavaScript error as `globalErrorHandler` inspects it: its
message, a `statusCode` property when present, the `isOperational` mark set
by `createError`, and whether it is a `ZodError`. -/
structure JsError where
  message : String
  statusCode : Option Nat := none
  isOperational : Bool := false
  isZod : Bool := false
deriving DecidableEq, Repr

/-- The error the multer `fileFilter` passes for a disallowed MIME type: a
plain `Error`, with no `statusCode` and no `isOperational` mark. -/
def invalidTypeError : JsError :=
  { message := "Invalid file type. Only JPG, PNG, GIF, BMP, WEBP, and PDF files are allowed." }

/-- The `MulterError` raised when the 10 MB `fileSize` limit is hit: it
carries a `code` but no `statusCode` and no `isOperational` mark. -/
def fileTooLargeError : JsError :=
  { message := "File too large" }

/-- The multer middleware on the upload route: `fileFilter` rejects MIME
types outside `allowedTypes`, and the `limits` option rejects bodies above
`10 * 1024 * 1024` bytes. -/
def multerCheck (f : UploadedFile) : Except JsError Unit :=
  if f.mimetype ∈ allowedMimeTypes then
    if f.size ≤ 10 * 1024 * 1024 then Except.ok () else Except.error fileTooLargeError
  else Except.error invalidTypeError

/-- `globalErrorHandler` (server/middleware/errorHandler.ts): Zod errors get
400, errors with a `statusCode` property and the `isOperational` mark get
their status (`statusCode || 500`), everything else gets 500. -/
def globalErrorHandler (e : JsError) : Nat × String :=
  if e.isZod then (400, "Validation failed")
  else if e.statusCode.isSome && e.isOperational then
    (if e.statusCode.getD 0 = 0 then 500 else e.statusCode.getD 0, e.message)
  else (500, "Internal server error")

/-- `POST /business-cards/upload` end to end: `requireAuth`, then multer,
then the handler, which inserts the card, fires the background run and
responds 201 immediately.  The background `PipelineEnv` never influences the
HTTP status; it only reaches the store afterwards.  Returns the HTTP status
together with the store once the background run has settled. -/
def uploadEndpoint (auth : Option String) (file : Option UploadedFile)
    (env : PipelineEnv) (now : ℚ) (s : AppState) : Nat × AppState :=
  match auth with
  | none => (401, s)
  | some u =>
    match file with
    | none => ((globalErrorHandler { message := "No file uploaded", statusCode := some 400, isOperational := true }).1, s)
    | some f =>
      match multerCheck f with
      | Except.error e => ((globalErrorHandler e).1, s)
      | Except.ok _ =>
        let cardId := nextCardId s
        (201, runPipelineOp env cardId now (uploadOp u f.originalname f.path now s))

/-- States reachable through the exposed operations, with contact deletion
excluded. -/
inductive ReachND : AppState → Prop where
  | init : ReachND emptyState
  | upload (u fn op : String) (now : ℚ) {s : AppState} :
      ReachND s → ReachND (uploadOp u fn op now s)
  | pipeline (env : PipelineEnv) (cardId : Nat) (now : ℚ) {s : AppState} :
      ReachND s → ReachND (runPipelineOp env cardId now s)
  | verify (caller : String) (cardId : Nat) (body : ContactFields) (now : ℚ) {s : AppState} :
      ReachND s → ReachND (verifyOp caller cardId body now s)
  | createC (f : ContactFields) (caller : String) (now : ℚ) {s : AppState} :
      ReachND s → ReachND (createContactOp f caller now s)
  | updateC (id : Nat) (u : String) (upd : ContactUpdate) (now : ℚ) {s : AppState} :
      ReachND s → ReachND (updateContactOp id u upd now s)
  | createE (name u : String) (now : ℚ) {s : AppState} :
      ReachND s → ReachND (createEventOp name u now s)
  | updateE (id : Nat) (u : String) (upd : EventUpdate) (now : ℚ) {s : AppState} :
      ReachND s → ReachND (updateEventOp id u upd now s)
  | deleteE (id : Nat) (u : String) {s : AppState} :
      ReachND s → ReachND (deleteEventOp id u s)

/-- States reachable through all exposed operations, contact deletion
included. -/
inductive ReachAll : AppState → Prop where
  | init : ReachAll emptyState
  | upload (u fn op : String) (now : ℚ) {s : AppState} :
      ReachAll s → ReachAll (uploadOp u fn op now s)
  | pipeline (env : PipelineEnv) (cardId : Nat) (now : ℚ) {s : AppState} :
      ReachAll s → ReachAll (runPipelineOp env cardId now s)
  | verify (caller : String) (cardId : Nat) (body : ContactFields) (now : ℚ) {s : AppState} :
      ReachAll s → ReachAll (verifyOp caller cardId body now s)
  | createC (f : ContactFields) (caller : String) (now : ℚ) {s : AppState} :
      ReachAll s → ReachAll (createContactOp f caller now s)
  | updateC (id : Nat) (u : String) (upd : ContactUpdate) (now : ℚ) {s : AppState} :
      ReachAll s → ReachAll (updateContactOp id u upd now s)
  | createE (name u : String) (now : ℚ) {s : AppState} :
      ReachAll s → ReachAll (createEventOp name u now s)
  | updateE (id : Nat) (u : String) (upd : EventUpdate) (now : ℚ) {s : AppState} :
      ReachAll s → ReachAll (updateEventOp id u upd now s)
  | deleteE (id : Nat) (u : String) {s : AppState} :
      ReachAll s → ReachAll (deleteEventOp id u s)
  | deleteC (id : Nat) (u : String) {s : AppState} :
      ReachAll s → ReachAll (deleteContactOp id u s)

/-- The invariant of claim C6: a completed card carries a contact link. -/
def completedCardsLinked (s : AppState) : Prop :=
  ∀ c ∈ s.cards, c.processingStatus = Status.completed → c.contactId ≠ none

lemma mem_insertByLe (le : Contact → Contact → Bool) (a c : Contact) (l : List Contact) :
    c ∈ insertByLe le a l ↔ c = a ∨ c ∈ l := by
  induction l with
  | nil => simp [insertByLe]
  | cons b bs ih =>
    unfold insertByLe
    by_cases h : le a b
    · simp [h]
    · simp only [h, Bool.false_eq_true, if_false, List.mem_cons, ih]
      tauto

lemma mem_sortByLe (le : Contact → Contact → Bool) (c : Contact) (l : List Contact) :
    c ∈ sortByLe le l ↔ c ∈ l := by
  induction l with
  | nil => simp [sortByLe]
  | cons a as ih => simp [sortByLe, mem_insertByLe, ih]

lemma length_insertByLe (le : Contact → Contact → Bool) (a : Contact) (l : List Contact) :
    (insertByLe le a l).length = l.length + 1 := by
  induction l with
  | nil => simp [insertByLe]
  | cons b bs ih =>
    unfold insertByLe
    by_cases h : le a b <;> simp [h, ih]

lemma length_sortByLe (le : Contact → Contact → Bool) (l : List Contact) :
    (sortByLe le l).length = l.length := by
  induction l with
  | nil => simp [sortByLe]
  | cons a as ih => simp [sortByLe, length_insertByLe, ih]

lemma append_ne_empty_left (a b : String) (h : a ≠ "") : a ++ b ≠ "" := by
  intro hab
  apply h
  have hd := congrArg String.data hab
  rw [String.data_append] at hd
  have := List.append_eq_nil.mp hd
  cases a
  simp_all

lemma lowOcrMsg_ne_empty (c : ℚ) : lowOcrMsg c ≠ "" := by
  unfold lowOcrMsg
  apply append_ne_empty_left
  apply append_ne_empty_left
  decide

lemma lowAiMsg_ne_empty (c : ℚ) : lowAiMsg c ≠ "" := by
  unfold lowAiMsg
  apply append_ne_empty_left
  apply append_ne_empty_left
  decide

lemma pipeline_completed_has_link (env : PipelineEnv) (u : String) (cid : Nat) (now : ℚ)
    (card0 : Card) :
    (processBusinessCard env u cid now card0).card.processingStatus = Status.completed →
    (processBusinessCard env u cid now card0).card.contactId ≠ none := by
  unfold processBusinessCard
  rcases env with ⟨ocr, llm, unlink⟩
  cases ocr with
  | error e => simp
  | ok r =>
    simp only
    split
    · simp
    · split
      · simp
      · split
        · simp
        · cases unlink <;> simp

/-- C1: for a background run that obtains non-empty OCR text with nonzero
OCR confidence and a structured-extraction result (and whose success-path
file cleanup does not throw): OCR confidence below 0.5 ends the card in
pending-verification with the extraction attempt recorded and a message
naming the confidence percentage, the extraction having been invoked before
the check; otherwise AI confidence below 0.15 ends it in
pending-verification with the pre-populated data; otherwise the card ends
completed with exactly one auto-created contact — and a contact is
auto-created in no other case. -/
theorem confidence_gating_c1 (env : PipelineEnv) (u : String) (cid : Nat) (now : ℚ)
    (card0 : Card) (r : OCRResult)
    (hocr : env.ocr = Except.ok r) (htext : r.text ≠ "") (hconf : r.confidence ≠ 0)
    (hunlink : env.unlink = Except.ok ()) :
    (r.confidence < 1 / 2 →
      (processBusinessCard env u cid now card0).card.processingStatus = Status.pendingVerification ∧
      (processBusinessCard env u cid now card0).card.extractedData =
        some (extractContactDataFromText env.llm) ∧
      (processBusinessCard env u cid now card0).card.processingError =
        some (lowOcrMsg r.confidence) ∧
      (processBusinessCard env u cid now card0).aiInvoked = true ∧
      (processBusinessCard env u cid now card0).createdContacts = []) ∧
    (¬ r.confidence < 1 / 2 → (extractContactDataFromText env.llm).confidence < 3 / 20 →
      (processBusinessCard env u cid now card0).card.processingStatus = Status.pendingVerification ∧
      (processBusinessCard env u cid now card0).card.extractedData =
        some (extractContactDataFromText env.llm) ∧
      (processBusinessCard env u cid now card0).card.processingError =
        some (lowAiMsg (extractContactDataFromText env.llm).confidence) ∧
      (processBusinessCard env u cid now card0).createdContacts = []) ∧
    (¬ r.confidence < 1 / 2 → ¬ (extractContactDataFromText env.llm).confidence < 3 / 20 →
      (processBusinessCard env u cid now card0).card.processingStatus = Status.completed ∧
      (processBusinessCard env u cid now card0).createdContacts =
        [mkExtractedContact (extractContactDataFromText env.llm) u cid now]) ∧
    ((processBusinessCard env u cid now card0).createdContacts ≠ [] ↔
      ¬ r.confidence < 1 / 2 ∧ ¬ (extractContactDataFromText env.llm).confidence < 3 / 20) := by
  rcases env with ⟨ocr, llm, unlink⟩
  simp only at hocr hunlink
  subst hocr
  subst hunlink
  unfold processBusinessCard
  have hcond : ¬ (r.confidence = 0 ∨ r.text = "") := by
    push_neg
    exact ⟨hconf, htext⟩
  simp only [hcond, if_false]
  by_cases h1 : r.confidence < 1 / 2 <;>
    by_cases h2 : (extractContactDataFromText llm).confidence < 3 / 20 <;>
      simp [h1, h2, -one_div]

/-- A concrete successful OCR result for exercising the pipeline. -/
def ocrSampleC1 : OCRResult := { text := "Jane Doe Acme Corp", confidence := 9 / 10 }

/-- A concrete environment on the success path. -/
def envSampleC1 : PipelineEnv :=
  { ocr := Except.ok ocrSampleC1
    llm := Except.ok { name := some "Jane Doe", confidence := 4 / 5 }
    unlink := Except.ok () }

/-- A freshly uploaded card row. -/
def cardSampleC1 : Card :=
  { id := 1, filename := "card.jpg", originalPath := "uploads/abc"
    processingStatus := Status.processing, userId := "user-1" }

/-- Witness for C1 at a concrete high-confidence run. -/
theorem confidence_gating_c1_witness :
    (envSampleC1.ocr = Except.ok ocrSampleC1 ∧ ocrSampleC1.text ≠ "" ∧
      ocrSampleC1.confidence ≠ 0 ∧ envSampleC1.unlink = Except.ok ()) ∧
    (¬ ocrSampleC1.confidence < 1 / 2 →
      ¬ (extractContactDataFromText envSampleC1.llm).confidence < 3 / 20 →
      (processBusinessCard envSampleC1 "user-1" 1 0 cardSampleC1).card.processingStatus =
        Status.completed ∧
      (processBusinessCard envSampleC1 "user-1" 1 0 cardSampleC1).createdContacts =
        [mkExtractedContact (extractContactDataFromText envSampleC1.llm) "user-1" 1 0]) :=
  ⟨⟨rfl, by decide, by norm_num [ocrSampleC1], rfl⟩,
   (confidence_gating_c1 envSampleC1 "user-1" 1 0 cardSampleC1 ocrSampleC1 rfl
      (by decide) (by norm_num [ocrSampleC1]) rfl).2.2.1⟩

/-- C3: when text extraction returns empty text or zero confidence, the card
is failed with a non-empty diagnostic, structured extraction is never
invoked, and no contact is created. -/
theorem ocr_empty_fails_c3 (env : PipelineEnv) (u : String) (cid : Nat) (now : ℚ)
    (card0 : Card) (r : OCRResult)
    (hocr : env.ocr = Except.ok r) (h : r.text = "" ∨ r.confidence = 0) :
    (processBusinessCard env u cid now card0).card.processingStatus = Status.failed ∧
    (processBusinessCard env u cid now card0).card.processingError = some ocrFailedMsg ∧
    ocrFailedMsg ≠ "" ∧
    (processBusinessCard env u cid now card0).aiInvoked = false ∧
    (processBusinessCard env u cid now card0).createdContacts = [] := by
  rcases env with ⟨ocr, llm, unlink⟩
  simp only at hocr
  subst hocr
  unfold processBusinessCard
  have hcond : (r.confidence = 0 ∨ r.text = "") := h.elim Or.inr Or.inl
  refine ⟨?_, ?_, by decide, ?_, ?_⟩ <;> simp [hcond]

/-- A run whose OCR yields empty text. -/
def envSampleC3 : PipelineEnv :=
  { ocr := Except.ok { text := "", confidence := 1 / 4 }
    llm := Except.ok { confidence := 1 }
    unlink := Except.ok () }

/-- An uploaded card row for the empty-OCR run. -/
def cardSampleC3 : Card :=
  { id := 3, filename := "blank.jpg", originalPath := "uploads/blank"
    processingStatus := Status.processing, userId := "user-3" }

/-- Witness for C3 at a concrete empty-text run. -/
theorem ocr_empty_fails_c3_witness :
    (envSampleC3.ocr = Except.ok { text := "", confidence := 1 / 4 } ∧
      (("" : String) = "" ∨ (1 / 4 : ℚ) = 0)) ∧
    ((processBusinessCard envSampleC3 "user-3" 1 0 cardSampleC3).card.processingStatus =
        Status.failed ∧
      (processBusinessCard envSampleC3 "user-3" 1 0 cardSampleC3).card.processingError =
        some ocrFailedMsg ∧
      ocrFailedMsg ≠ "" ∧
      (processBusinessCard envSampleC3 "user-3" 1 0 cardSampleC3).aiInvoked = false ∧
      (processBusinessCard envSampleC3 "user-3" 1 0 cardSampleC3).createdContacts = []) :=
  ⟨⟨rfl, Or.inl rfl⟩,
   ocr_empty_fails_c3 envSampleC3 "user-3" 1 0 cardSampleC3 _ rfl (Or.inl rfl)⟩


lemma pbc_at_most_one_contact (env : PipelineEnv) (u : String) (cid : Nat) (now : ℚ)
    (card0 : Card) :
    (processBusinessCard env u cid now card0).createdContacts.length ≤ 1 := by
  unfold processBusinessCard
  rcases env with ⟨ocr, llm, unlink⟩
  cases ocr with
  | error e => simp
  | ok r =>
    simp only
    split
    · simp
    · split
      · simp
      · split
        · simp
        · cases unlink <;> simp

lemma pbc_deleted_iff_completed (env : PipelineEnv) (u : String) (cid : Nat) (now : ℚ)
    (card0 : Card) :
    (processBusinessCard env u cid now card0).fileDeleted = true ↔
    (processBusinessCard env u cid now card0).card.processingStatus = Status.completed := by
  unfold processBusinessCard
  rcases env with ⟨ocr, llm, unlink⟩
  cases ocr with
  | error e => simp
  | ok r =>
    simp only
    split
    · simp
    · split
      · simp
      · split
        · simp
        · cases unlink <;> simp

lemma pbc_ocr_error (env : PipelineEnv) (u : String) (cid : Nat) (now : ℚ) (card0 : Card)
    (e : String) (h : env.ocr = Except.error e) :
    (processBusinessCard env u cid now card0).card.processingStatus = Status.failed ∧
    (processBusinessCard env u cid now card0).card.processingError = some (procFailedMsg e) ∧
    (processBusinessCard env u cid now card0).fileDeleted = false := by
  rcases env with ⟨ocr, llm, unlink⟩
  simp only at h
  subst h
  unfold processBusinessCard
  exact ⟨rfl, rfl, rfl⟩

lemma pbc_unlink_error (env : PipelineEnv) (u : String) (cid : Nat) (now : ℚ) (card0 : Card)
    (r : OCRResult) (e : String) (hocr : env.ocr = Except.ok r)
    (htext : r.text ≠ "") (hconf : r.confidence ≠ 0)
    (h1 : ¬ r.confidence < 1 / 2)
    (h2 : ¬ (extractContactDataFromText env.llm).confidence < 3 / 20)
    (hunl : env.unlink = Except.error e) :
    (processBusinessCard env u cid now card0).card.processingStatus = Status.failed ∧
    (processBusinessCard env u cid now card0).card.processingError = some (procFailedMsg e) ∧
    (processBusinessCard env u cid now card0).fileDeleted = false := by
  rcases env with ⟨ocr, llm, unlink⟩
  simp only at hocr hunl h2
  subst hocr
  subst hunl
  unfold processBusinessCard
  have hcond : ¬ (r.confidence = 0 ∨ r.text = "") := by
    push_neg
    exact ⟨hconf, htext⟩
  simp [hcond, h1, h2, -one_div]

/-- C5: one run creates at most one contact; the uploaded file is deleted
exactly when the run ends completed; a throwing step (file read / OCR, or
the success-path cleanup) leaves the card failed with the causing error's
message and the file in place. -/
theorem pipeline_effects_c5 (env : PipelineEnv) (u : String) (cid : Nat) (now : ℚ)
    (card0 : Card) :
    (processBusinessCard env u cid now card0).createdContacts.length ≤ 1 ∧
    ((processBusinessCard env u cid now card0).fileDeleted = true ↔
      (processBusinessCard env u cid now card0).card.processingStatus = Status.completed) ∧
    (∀ e, env.ocr = Except.error e →
      (processBusinessCard env u cid now card0).card.processingStatus = Status.failed ∧
      (processBusinessCard env u cid now card0).card.processingError = some (procFailedMsg e) ∧
      (processBusinessCard env u cid now card0).fileDeleted = false) ∧
    (∀ r e, env.ocr = Except.ok r → r.text ≠ "" → r.confidence ≠ 0 →
      ¬ r.confidence < 1 / 2 → ¬ (extractContactDataFromText env.llm).confidence < 3 / 20 →
      env.unlink = Except.error e →
      (processBusinessCard env u cid now card0).card.processingStatus = Status.failed ∧
      (processBusinessCard env u cid now card0).card.processingError = some (procFailedMsg e) ∧
      (processBusinessCard env u cid now card0).fileDeleted = false) := by
  refine ⟨pbc_at_most_one_contact env u cid now card0, pbc_deleted_iff_completed env u cid now card0,
    fun e he => pbc_ocr_error env u cid now card0 e he,
    fun r e hocr htext hconf h1 h2 hunl =>
      pbc_unlink_error env u cid now card0 r e hocr htext hconf h1 h2 hunl⟩

/-- A run whose file read throws. -/
def envSampleC5 : PipelineEnv :=
  { ocr := Except.error "ENOENT: no such file or directory"
    llm := Except.error ()
    unlink := Except.ok () }

/-- An uploaded card row for the throwing run. -/
def cardSampleC5 : Card :=
  { id := 5, filename := "gone.jpg", originalPath := "uploads/gone"
    processingStatus := Status.processing, userId := "user-5" }

/-- Witness for C5 at a concrete run whose file read throws. -/
theorem pipeline_effects_c5_witness :
    (processBusinessCard envSampleC5 "user-5" 1 0 cardSampleC5).card.processingStatus =
      Status.failed ∧
    (processBusinessCard envSampleC5 "user-5" 1 0 cardSampleC5).card.processingError =
      some (procFailedMsg "ENOENT: no such file or directory") ∧
    (processBusinessCard envSampleC5 "user-5" 1 0 cardSampleC5).fileDeleted = false ∧
    (processBusinessCard envSampleC5 "user-5" 1 0 cardSampleC5).createdContacts.length ≤ 1 := by
  have h := pipeline_effects_c5 envSampleC5 "user-5" 1 0 cardSampleC5
  have hf := h.2.2.1 "ENOENT: no such file or directory" rfl
  exact ⟨hf.1, hf.2.1, hf.2.2, h.1⟩

/-- A run whose OCR succeeds with high confidence but whose LLM call fails. -/
def envLlmFail : PipelineEnv :=
  { ocr := Except.ok { text := "Jane Doe Acme Corp", confidence := 9 / 10 }
    llm := Except.error ()
    unlink := Except.ok () }

/-- An uploaded card row for the LLM-failure run. -/
def cardSampleC4 : Card :=
  { id := 4, filename := "c4.jpg", originalPath := "uploads/c4"
    processingStatus := Status.processing, userId := "user-4" }

lemma pbc_llm_error_pending (env : PipelineEnv) (u : String) (cid : Nat) (now : ℚ)
    (card0 : Card) (r : OCRResult) (hocr : env.ocr = Except.ok r)
    (htext : r.text ≠ "") (hconf : r.confidence ≠ 0)
    (hllm : env.llm = Except.error ()) :
    (processBusinessCard env u cid now card0).card.processingStatus =
      Status.pendingVerification ∧
    ∃ m, (processBusinessCard env u cid now card0).card.processingError = some m ∧ m ≠ "" := by
  rcases env with ⟨ocr, llm, unlink⟩
  simp only at hocr hllm
  subst hocr
  subst hllm
  unfold processBusinessCard
  have hcond : ¬ (r.confidence = 0 ∨ r.text = "") := by
    push_neg
    exact ⟨hconf, htext⟩
  have h2 : (extractContactDataFromText (Except.error ())).confidence < 3 / 20 := by
    unfold extractContactDataFromText
    norm_num
  by_cases h1 : r.confidence < 1 / 2
  · refine ⟨by simp [hcond, h1, -one_div], lowOcrMsg r.confidence, ?_, lowOcrMsg_ne_empty _⟩
    simp [hcond, h1, -one_div]
  · refine ⟨by simp [hcond, h1, h2, -one_div],
      lowAiMsg (extractContactDataFromText (Except.error ())).confidence, ?_,
      lowAiMsg_ne_empty _⟩
    simp [hcond, h1, h2, -one_div]

/-- C4 counterexample: on a run where the structured-extraction (LLM) call
fails, the card is recorded as pending-verification — not as failed, as the
claim states — because `extractContactDataFromText` swallows the error into
a confidence-0 payload that trips the 0.15 gate. -/
theorem llm_failure_c4_counterexample :
    (processBusinessCard envLlmFail "user-4" 1 0 cardSampleC4).card.processingStatus =
      Status.pendingVerification ∧
    Status.pendingVerification ≠ Status.failed :=
  ⟨(pbc_llm_error_pending envLlmFail "user-4" 1 0 cardSampleC4
      { text := "Jane Doe Acme Corp", confidence := 9 / 10 } rfl (by decide)
      (by norm_num) rfl).1,
   by decide⟩

/-- C4 (amended): an LLM failure is never surfaced to the HTTP caller of the
upload endpoint — the response status is computed without reference to the
background run's outcomes — and the card is recorded as pending-verification
(not failed) with a non-empty error message. -/
theorem llm_failure_handling_c4 :
    (∀ auth file env env2 now s,
      (uploadEndpoint auth file env now s).1 = (uploadEndpoint auth file env2 now s).1) ∧
    (∀ env u cid now card0 r, env.ocr = Except.ok r → r.text ≠ "" → r.confidence ≠ 0 →
      env.llm = Except.error () →
      (processBusinessCard env u cid now card0).card.processingStatus =
        Status.pendingVerification ∧
      ∃ m, (processBusinessCard env u cid now card0).card.processingError = some m ∧ m ≠ "") := by
  constructor
  · intro auth file env env2 now s
    cases auth with
    | none => rfl
    | some u =>
      cases file with
      | none => rfl
      | some f =>
        unfold uploadEndpoint
        rcases h : multerCheck f with e | v <;> simp [h]
  · intro env u cid now card0 r hocr htext hconf hllm
    exact pbc_llm_error_pending env u cid now card0 r hocr htext hconf hllm

/-- Witness for the amended C4 at a concrete LLM-failure run. -/
theorem llm_failure_handling_c4_witness :
    (processBusinessCard envLlmFail "user-4" 1 0 cardSampleC4).card.processingStatus =
      Status.pendingVerification ∧
    ∃ m, (processBusinessCard envLlmFail "user-4" 1 0 cardSampleC4).card.processingError =
      some m ∧ m ≠ "" :=
  llm_failure_handling_c4.2 envLlmFail "user-4" 1 0 cardSampleC4
    { text := "Jane Doe Acme Corp", confidence := 9 / 10 } rfl (by decide)
    (by norm_num) rfl

lemma evalCond_conj_user (u : String) (wc : Option Cond) (c : Contact)
    (h : evalCond (match wc with
                   | some w => Cond.conj (Cond.eqUser u) w
                   | none => Cond.eqUser u) c = true) :
    c.userId = u := by
  cases wc with
  | none => simpa [evalCond] using h
  | some w =>
    simp [evalCond, Bool.and_eq_true] at h
    exact h.1

lemma evalCond_searchFilter (criteria : JsonVal) (u : String) (c : Contact)
    (h : evalCond (searchFilter criteria u) c = true) : c.userId = u := by
  unfold searchFilter at h
  revert h
  cases whereVal criteria with
  | none =>
    intro h
    simpa [evalCond] using h
  | some w =>
    intro h
    exact evalCond_conj_user u (buildWhereClause w) c h

/-- C2: search, list and get-by-id return only contacts owned by the caller,
for every criteria value however malformed — the owning-user condition is
conjoined at the top level of the search filter — and unrecognized
predicates (non-object conditions, unknown keys, unknown operators) are
silently dropped by the where-clause builder, never an error. -/
theorem tenant_isolation_c2 :
    (∀ criteria u db c, c ∈ searchContacts criteria u db → c.userId = u) ∧
    (∀ u limit offset db c, c ∈ getAllContacts u limit offset db → c.userId = u) ∧
    (∀ id u db c, getContact id u db = some c → c.userId = u) ∧
    (∀ k rest, ∀ v : JsonVal, (∀ fields, v ≠ JsonVal.obj fields) →
      (∀ xs, v ≠ JsonVal.arr xs) →
      buildConds ((k, v) :: rest) = buildConds rest) ∧
    (∀ k op operand,
      k ∉ (["name", "email", "company", "title", "industry", "createdAt", "and", "or"] : List String) →
      condFor k op operand = none) ∧
    (∀ k op operand, k ∈ (["name", "company", "title", "industry"] : List String) →
      op ≠ "ilike" → condFor k op operand = none) := by
  refine ⟨?_, ?_, ?_, ?_, ?_, ?_⟩
  · intro criteria u db c hc
    unfold searchContacts at hc
    have h1 := (mem_sortByLe _ _ _).mp hc
    have h2 := List.of_mem_filter h1
    exact evalCond_searchFilter criteria u c h2
  · intro u limit offset db c hc
    unfold getAllContacts at hc
    have h1 := List.mem_of_mem_take hc
    have h2 := List.mem_of_mem_drop h1
    have h3 := (mem_sortByLe _ _ _).mp h2
    have h4 := List.of_mem_filter h3
    simpa using h4
  · intro id u db c hc
    unfold getContact at hc
    have := List.find?_some hc
    simp at this
    exact this.2
  · intro k rest v hobj harr
    cases v with
    | obj fields => exact absurd rfl (hobj fields)
    | arr xs => exact absurd rfl (harr xs)
    | str s => rfl
    | num q => rfl
    | bool b => rfl
    | null => rfl
  · intro k op operand hk
    simp only [List.mem_cons, List.not_mem_nil, or_false, not_or] at hk
    obtain ⟨h1, h2, h3, h4, h5, h6, h7, h8⟩ := hk
    unfold condFor
    rw [if_neg h1, if_neg h2, if_neg h3, if_neg h4, if_neg h5, if_neg h6, if_neg h7, if_neg h8]
  · intro k op operand hk hop
    unfold condFor
    simp only [List.mem_cons, List.not_mem_nil, or_false] at hk
    rcases hk with h | h | h | h
    all_goals subst h
    all_goals simp [hop]

/-- A contact owned by a concrete caller. -/
def contactAliceC2 : Contact := { id := 1, name := "Ada Lovelace", userId := "alice" }

/-- Witness for C2: a concrete search returns the caller's contact and the
theorem pins its owner. -/
theorem tenant_isolation_c2_witness :
    contactAliceC2 ∈ searchContacts (JsonVal.obj []) "alice" [contactAliceC2] ∧
    contactAliceC2.userId = "alice" := by
  have h : searchContacts (JsonVal.obj []) "alice" [contactAliceC2] = [contactAliceC2] := rfl
  have hmem : contactAliceC2 ∈ searchContacts (JsonVal.obj []) "alice" [contactAliceC2] := by
    rw [h]
    exact List.mem_singleton_self _
  exact ⟨hmem, tenant_isolation_c2.1 _ _ _ _ hmem⟩

/-- C8: a failed or unparseable query interpretation yields the empty
criteria object, and searching with the empty criteria object returns
exactly the unfiltered (user-scoped) contact list. -/
theorem nlq_fallback_c8 (u : String) (db : List Contact) :
    processNaturalLanguageQuery (Except.error ()) = JsonVal.obj [] ∧
    searchContacts (processNaturalLanguageQuery (Except.error ())) u db =
      getAllContacts u db.length 0 db := by
  refine ⟨rfl, ?_⟩
  have hlen : (sortByLe createdDescLe (db.filter (fun c => c.userId == u))).length ≤ db.length := by
    rw [length_sortByLe]
    exact List.length_filter_le _ _
  unfold getAllContacts
  rw [List.drop_zero, List.take_of_length_le hlen]
  rfl

/-- An upload of an unsupported MIME type. -/
def badUploadC7 : UploadedFile :=
  { originalname := "resume.txt", mimetype := "text/plain", size := 1024, path := "uploads/tmp1" }

/-- A background environment that is never reached on a rejected upload. -/
def envIdleC7 : PipelineEnv :=
  { ocr := Except.error "not reached", llm := Except.error (), unlink := Except.ok () }

/-- C7 counterexample: an unsupported MIME type is rejected and no card row
is created, but the HTTP status is 500, not 400 — the multer errors carry no
statusCode and no isOperational mark, so globalErrorHandler falls through to
its unknown-error arm. -/
theorem upload_reject_c7_counterexample :
    (uploadEndpoint (some "user-7") (some badUploadC7) envIdleC7 0 emptyState).1 = 500 ∧
    (500 : Nat) ≠ 400 ∧
    (uploadEndpoint (some "user-7") (some badUploadC7) envIdleC7 0 emptyState).2 = emptyState :=
  ⟨rfl, by decide, rfl⟩

/-- C7 (amended): an upload above 10 MB or of an unsupported MIME type is
rejected before the handler runs — no card row is created — but the response
status is 500 rather than 400, because neither multer error is an
operational error for globalErrorHandler. -/
theorem upload_reject_c7 (u : String) (f : UploadedFile) (env : PipelineEnv) (now : ℚ)
    (s : AppState)
    (h : f.mimetype ∉ allowedMimeTypes ∨ 10 * 1024 * 1024 < f.size) :
    (uploadEndpoint (some u) (some f) env now s).1 = 500 ∧
    (uploadEndpoint (some u) (some f) env now s).2 = s := by
  have hmc : ∃ e, multerCheck f = Except.error e ∧ e.isZod = false ∧
      e.statusCode = none ∧ e.isOperational = false := by
    unfold multerCheck
    rcases h with h | h
    · exact ⟨invalidTypeError, by rw [if_neg h], rfl, rfl, rfl⟩
    · by_cases hm : f.mimetype ∈ allowedMimeTypes
      · refine ⟨fileTooLargeError, ?_, rfl, rfl, rfl⟩
        rw [if_pos hm, if_neg (by omega)]
      · exact ⟨invalidTypeError, by rw [if_neg hm], rfl, rfl, rfl⟩
  obtain ⟨e, he, hz, hsc, hop⟩ := hmc
  simp only [uploadEndpoint]
  rw [he]
  simp [globalErrorHandler, hz, hsc]

/-- Witness for the amended C7 at the concrete unsupported-type upload. -/
theorem upload_reject_c7_witness :
    (badUploadC7.mimetype ∉ allowedMimeTypes ∨ 10 * 1024 * 1024 < badUploadC7.size) ∧
    (uploadEndpoint (some "user-7") (some badUploadC7) envIdleC7 0 emptyState).1 = 500 ∧
    (uploadEndpoint (some "user-7") (some badUploadC7) envIdleC7 0 emptyState).2 = emptyState :=
  ⟨Or.inl (by decide),
   upload_reject_c7 "user-7" badUploadC7 envIdleC7 0 emptyState (Or.inl (by decide))⟩

/-- C9: for an existing card id and a valid body, verify creates a contact
owned by the caller and forces the card to completed with the link set and
the error cleared — and the effect is the same whatever the card's
owning-user identifier is, because the card update filters by id only. -/
theorem verify_ignores_card_owner_c9 (caller : String) (cardId : Nat) (body : ContactFields)
    (now : ℚ) (s : AppState) (card : Card) (hmem : card ∈ s.cards) (hid : card.id = cardId) :
    (mkContactFromFields (nextContactId s) body caller now).userId = caller ∧
    mkContactFromFields (nextContactId s) body caller now ∈
      (verifyOp caller cardId body now s).contacts ∧
    { card with contactId := some (nextContactId s)
                processingStatus := Status.completed
                processingError := none
                updatedAt := now } ∈ (verifyOp caller cardId body now s).cards ∧
    (∀ w, verifyOp caller cardId body now (setCardOwner cardId w s) =
          setCardOwner cardId w (verifyOp caller cardId body now s)) := by
  refine ⟨rfl, ?_, ?_, ?_⟩
  · unfold verifyOp
    simp
  · have hb : (card.id == cardId) = true := by simp [hid]
    have himg := List.mem_map_of_mem
      (fun c : Card => if c.id == cardId then
        { c with contactId := some (nextContactId s)
                 processingStatus := Status.completed
                 processingError := none
                 updatedAt := now } else c) hmem
    simp only [hb, if_true] at himg
    exact himg
  · intro w
    unfold verifyOp setCardOwner
    rw [AppState.mk.injEq]
    refine ⟨rfl, ?_, rfl⟩
    simp only [List.map_map]
    refine congrFun (congrArg List.map (funext fun x => ?_)) s.cards
    by_cases hx : x.id == cardId <;> simp [Function.comp, hx, nextContactId]

/-- A pending-verification card owned by one user. -/
def cardC9 : Card :=
  { id := 7, filename := "v.jpg", originalPath := "uploads/v"
    processingStatus := Status.pendingVerification
    processingError := some "Low OCR confidence (30%). Please verify extracted data."
    userId := "owner-A" }

/-- The state holding one pending-verification card owned by a different
user. -/
def sVerifyC9 : AppState := { contacts := [], cards := [cardC9], events := [] }

/-- The verified body submitted by the caller. -/
def bodyC9 : ContactFields := { name := "Verified Person", userId := "whatever-the-client-sent" }

/-- Witness for C9 at a concrete state: a caller distinct from the card's
owner verifies it. -/
theorem verify_ignores_card_owner_c9_witness :
    (mkContactFromFields (nextContactId sVerifyC9) bodyC9 "caller-B" 0).userId = "caller-B" ∧
    mkContactFromFields (nextContactId sVerifyC9) bodyC9 "caller-B" 0 ∈
      (verifyOp "caller-B" 7 bodyC9 0 sVerifyC9).contacts ∧
    { cardC9 with contactId := some (nextContactId sVerifyC9)
                  processingStatus := Status.completed
                  processingError := none
                  updatedAt := 0 } ∈ (verifyOp "caller-B" 7 bodyC9 0 sVerifyC9).cards ∧
    (∀ w, verifyOp "caller-B" 7 bodyC9 0 (setCardOwner 7 w sVerifyC9) =
          setCardOwner 7 w (verifyOp "caller-B" 7 bodyC9 0 sVerifyC9)) :=
  verify_ignores_card_owner_c9 "caller-B" 7 bodyC9 0 sVerifyC9 cardC9
    (List.mem_singleton_self _) rfl

/-- C10: a contact update whose body carries an owning-user value writes it
into the stored row — the partial insert schema omits only id and the
timestamps, so userId is accepted and spread into the update. -/
theorem contact_update_owner_overwrite_c10 (id : Nat) (u v : String) (upd : ContactUpdate)
    (now : ℚ) (db : List Contact) (howner : upd.userId = some v)
    (hex : ∃ c ∈ db, c.id = id ∧ c.userId = u) :
    ∃ c2, (updateContact id u upd now db).1 = some c2 ∧ c2.userId = v := by
  have hfind : (db.find? (fun c => c.id == id && c.userId == u)).isSome := by
    rw [List.find?_isSome]
    obtain ⟨c0, hc0, hid, hu⟩ := hex
    exact ⟨c0, hc0, by simp [hid, hu]⟩
  obtain ⟨c0, hc0⟩ := Option.isSome_iff_exists.mp hfind
  unfold updateContact
  rw [hc0]
  exact ⟨applyContactUpdate upd now c0, rfl, by simp [applyContactUpdate, howner]⟩

/-- A stored contact owned by a concrete user. -/
def contactBobC10 : Contact := { id := 2, name := "Bob", userId := "bob" }

/-- An update body that reassigns the owning user. -/
def updC10 : ContactUpdate := { userId := some "mallory" }

/-- Witness for C10 at a concrete row and update. -/
theorem contact_update_owner_overwrite_c10_witness :
    ∃ c2, (updateContact 2 "bob" updC10 0 [contactBobC10]).1 = some c2 ∧
      c2.userId = "mallory" :=
  contact_update_owner_overwrite_c10 2 "bob" "mallory" updC10 0 [contactBobC10] rfl
    ⟨contactBobC10, List.mem_singleton_self _, rfl, rfl⟩

lemma completedCardsLinked_upload (u fn op : String) (now : ℚ) (s : AppState)
    (h : completedCardsLinked s) : completedCardsLinked (uploadOp u fn op now s) := by
  intro c hc hcs
  unfold uploadOp at hc
  rcases List.mem_append.mp hc with h1 | h1
  · exact h c h1 hcs
  · rw [List.mem_singleton] at h1
    subst h1
    simp at hcs

lemma completedCardsLinked_pipeline (env : PipelineEnv) (cardId : Nat) (now : ℚ) (s : AppState)
    (h : completedCardsLinked s) : completedCardsLinked (runPipelineOp env cardId now s) := by
  unfold runPipelineOp
  cases hf : s.cards.find? (fun c => c.id == cardId) with
  | none => exact h
  | some card =>
    intro c hc hcs
    obtain ⟨x, hx, rfl⟩ := List.mem_map.mp hc
    by_cases hb : x.id == cardId
    · rw [if_pos hb] at hcs ⊢
      exact pipeline_completed_has_link env card.userId (nextContactId s) now card hcs
    · rw [if_neg hb] at hcs ⊢
      exact h x hx hcs

lemma completedCardsLinked_verify (caller : String) (cardId : Nat) (body : ContactFields)
    (now : ℚ) (s : AppState)
    (h : completedCardsLinked s) : completedCardsLinked (verifyOp caller cardId body now s) := by
  intro c hc hcs
  unfold verifyOp at hc
  obtain ⟨x, hx, rfl⟩ := List.mem_map.mp hc
  by_cases hb : x.id == cardId
  · rw [if_pos hb]
    simp
  · rw [if_neg hb] at hcs ⊢
    exact h x hx hcs

/-- C6 (amended): in every state reachable through the exposed operations
other than contact deletion (upload, pipeline run, verify, contact
create/update, event CRUD), every completed card has a non-null contact
link.  Contact deletion breaks this: it clears the link on referencing cards
while leaving their status completed. -/
theorem completed_card_link_c6 (s : AppState) (h : ReachND s) : completedCardsLinked s := by
  induction h with
  | init =>
    intro c hc
    simp [emptyState] at hc
  | upload u fn op now hp ih => exact completedCardsLinked_upload u fn op now _ ih
  | pipeline env cardId now hp ih => exact completedCardsLinked_pipeline env cardId now _ ih
  | verify caller cardId body now hp ih => exact completedCardsLinked_verify caller cardId body now _ ih
  | createC f caller now hp ih => exact ih
  | updateC id u upd now hp ih => exact ih
  | createE name u now hp ih => exact ih
  | updateE id u upd now hp ih => exact ih
  | deleteE id u hp ih => exact ih

/-- Witness for the amended C6 at a concrete reachable state. -/
theorem completed_card_link_c6_witness :
    ReachND (uploadOp "user-6" "w.jpg" "uploads/w" 0 emptyState) ∧
    completedCardsLinked (uploadOp "user-6" "w.jpg" "uploads/w" 0 emptyState) :=
  ⟨ReachND.upload "user-6" "w.jpg" "uploads/w" 0 ReachND.init,
   completed_card_link_c6 _ (ReachND.upload "user-6" "w.jpg" "uploads/w" 0 ReachND.init)⟩

/-- A fully successful background environment for the C6 chain. -/
def envC6 : PipelineEnv :=
  { ocr := Except.ok { text := "Jane Doe Acme Corp", confidence := 9 / 10 }
    llm := Except.ok { name := some "Jane Doe", confidence := 4 / 5 }
    unlink := Except.ok () }

/-- Upload, run the pipeline to completion, then delete the auto-created
contact. -/
def sBadC6 : AppState :=
  deleteContactOp 1 "user-6"
    (runPipelineOp envC6 1 0 (uploadOp "user-6" "w.jpg" "uploads/w" 0 emptyState))

/-- C6 counterexample: the state reached by upload, successful pipeline run,
then contact deletion contains a card that is completed with a null contact
link, refuting the claim over the full operation set. -/
theorem completed_card_link_c6_counterexample :
    ReachAll sBadC6 ∧
    ∃ c ∈ sBadC6.cards, c.processingStatus = Status.completed ∧ c.contactId = none := by
  constructor
  · exact ReachAll.deleteC 1 "user-6"
      (ReachAll.pipeline envC6 1 0
        (ReachAll.upload "user-6" "w.jpg" "uploads/w" 0 ReachAll.init))
  · refine ⟨{ id := 1, filename := "w.jpg", originalPath := "uploads/w"
              ocrText := some "Jane Doe Acme Corp"
              extractedData := some { name := some "Jane Doe", confidence := 4 / 5 }
              processingStatus := Status.completed
              processingError := none
              ocrConfidence := some (9 / 10)
              aiConfidence := some (4 / 5)
              contactId := none
              userId := "user-6"
              createdAt := 0
              updatedAt := 0 }, ?_, rfl, rfl⟩
    have htext : ¬ ("Jane Doe Acme Corp" = "") := by decide
    norm_num [sBadC6, deleteContactOp, runPipelineOp, uploadOp, emptyState, nextCardId,
      nextContactId, processBusinessCard, extractContactDataFromText, envC6, htext, -one_div]
